import Mathlib

/-!
Shallow embedding of the Paibot conversational core (src/bot/*.py):
the Paimon persona transformer, the per-user memory store, the command
documentation lookup, and the chat orchestrator `PaibotChat.respond`.

Strings are modelled as Lean `String`s; Python-specific string
primitives (`str.strip`, `str.lower`, `str.split`, `in`, `startswith`,
negative slices) are embedded as explicit functions over `List Char`.
The embedding is ASCII-faithful for the character classes the code
uses (`[^a-zA-Z0-9_.-]`, `\w`, `\s`): Python's str methods are
unicode-aware but every character class in the source is written in
ASCII, and the claims are settled over that alphabet.

The external Gemini model is an opaque oracle `List ChatContent → String`
(the `.text` of the response; `getattr(response, "text", "")` is covered
by an oracle returning `""`).  The filesystem under the memory base
directory is a map from sanitized user id to the written JSON payload;
`datetime.now()` results are threaded as an explicit `now : String`.
-/

/-- Python whitespace for `str.strip` / regex `\s` (ASCII subset). -/
def pyIsSpace (c : Char) : Bool :=
  c = ' ' || c = '\t' || c = '\n' || c = '\r' || c = '\x0b' || c = '\x0c'

/-- `str.strip()` on a character list: drop whitespace at both ends. -/
def pyStripList (l : List Char) : List Char :=
  ((l.dropWhile pyIsSpace).reverse.dropWhile pyIsSpace).reverse

/-- `str.strip()`. -/
def pyStrip (s : String) : String := ⟨pyStripList s.data⟩

/-- `str.lower()` (ASCII). -/
def pyLower (s : String) : String := ⟨s.data.map Char.toLower⟩

/-- `needle` is a prefix of `hay` (Python `str.startswith`). -/
def isPrefixList : List Char → List Char → Bool
  | [], _ => true
  | _ :: _, [] => false
  | a :: as, b :: bs => a = b && isPrefixList as bs

/-- `needle in hay` for Python strings: substring containment. -/
def containsSub (needle : List Char) : List Char → Bool
  | [] => needle.isEmpty
  | c :: rest => isPrefixList needle (c :: rest) || containsSub needle rest

/-- Python `text.split(sep)` for a single-character separator:
keeps empty fragments, `"".split(c) = [""]`. -/
def pySplitChar (sep : Char) : List Char → List (List Char)
  | [] => [[]]
  | c :: rest =>
    match pySplitChar sep rest with
    | [] => [[]]
    | h :: t => if c = sep then [] :: h :: t else (c :: h) :: t

/-- Python `text.split(sep)` for a multi-character separator, with the
input length as structural fuel (non-overlapping left-to-right scan). -/
def pySplitSeqFuel (sep : List Char) : Nat → List Char → List (List Char)
  | _, [] => [[]]
  | 0, l => [l]
  | fuel + 1, c :: rest =>
    if !sep.isEmpty && isPrefixList sep (c :: rest) then
      [] :: pySplitSeqFuel sep fuel ((c :: rest).drop sep.length)
    else
      match pySplitSeqFuel sep fuel rest with
      | [] => [[]]
      | h :: t => (c :: h) :: t

/-- Python `text.split(sep)` for a multi-character separator. -/
def pySplitSeq (sep : List Char) (l : List Char) : List (List Char) :=
  pySplitSeqFuel sep l.length l

/-- `str(bool).lower()`. -/
def pyBoolStr (b : Bool) : String := if b then "true" else "false"

/-! ## src/bot/memory.py -/

/-- Characters allowed by the sanitizer regex class `[a-zA-Z0-9_.-]`. -/
def isSafeChar (c : Char) : Bool :=
  ('a' ≤ c && c ≤ 'z') || ('A' ≤ c && c ≤ 'Z') || ('0' ≤ c && c ≤ '9') ||
    c = '_' || c = '.' || c = '-'

/-- `MemoryManager._sanitize_user_id`:
`re.sub(r"[^a-zA-Z0-9_.-]", "_", user_id) or "anonymous"` (the `or`
falls back exactly when the substituted string is empty). -/
def sanitize_user_id (user_id : String) : String :=
  let sanitized := user_id.data.map (fun c => if isSafeChar c then c else '_')
  if sanitized.isEmpty then "anonymous" else ⟨sanitized⟩

/-- `MemoryRecord` dataclass: `timestamp` carries the `datetime.now()`
string assigned at construction. -/
structure MemoryRecord where
  role : String
  content : String
  metadata : Option (List (String × String)) := none
  timestamp : String
  deriving Repr, DecidableEq

/-- One record as stored in the JSON file.  A field is `none` when its
key is absent from the serialized dict (so `MemoryRecord.to_json`
dropping a `None` metadata is `metadata := none` here). -/
structure JsonRecord where
  role : Option String
  content : Option String
  metadata : Option (List (String × String))
  timestamp : Option String
  deriving Repr, DecidableEq

/-- `MemoryRecord.to_json`: serialize all fields, dropping `None`
metadata from the dict. -/
def MemoryRecord.to_json (r : MemoryRecord) : JsonRecord :=
  { role := some r.role, content := some r.content,
    metadata := r.metadata, timestamp := some r.timestamp }

/-- The JSON payload `save_history` writes to the per-user file. -/
structure MemoryPayload where
  user_id : String
  history : List JsonRecord
  updated_at : String
  deriving Repr

/-- The filesystem under the memory base directory: sanitized user id
(the `.json` filename stem) to the payload written there, `none` when
the file does not exist. -/
def Store : Type := String → Option MemoryPayload

/-- The record `load_history` builds from one JSON item, with the
defaults of `item.get`: role `"assistant"`, content `""`, metadata
`None`, timestamp `datetime.now()` (the `now` argument). -/
def recordOfItem (now : String) (item : JsonRecord) : MemoryRecord :=
  { role := item.role.getD "assistant",
    content := item.content.getD "",
    metadata := item.metadata,
    timestamp := item.timestamp.getD now }

/-- `MemoryManager.load_history`: missing file is empty history. -/
def load_history (store : Store) (now : String) (user_id : String) : List MemoryRecord :=
  match store (sanitize_user_id user_id) with
  | none => []
  | some payload => payload.history.map (recordOfItem now)

/-- `MemoryManager.save_history`: full overwrite of the user's file with
the serialized records and an `updated_at` stamp. -/
def save_history (store : Store) (now : String) (user_id : String)
    (history : List MemoryRecord) : Store :=
  fun key =>
    if key = sanitize_user_id user_id then
      some { user_id := user_id, history := history.map MemoryRecord.to_json,
             updated_at := now }
    else store key

/-! ## src/bot/persona.py -/

/-- `PaimonPersona` dataclass with its defaults. -/
structure PaimonPersona where
  name : String := "Paimon"
  referential_third_person : Bool := true
  closing_emotes : List String := ["☆", "✨", "♪", "☄️"]

/-- The default-constructed `PaimonPersona()`. -/
def defaultPersona : PaimonPersona := {}

/-- `PaimonPersona._decorate_sentence`. -/
def decorate_sentence (p : PaimonPersona) (sentence0 : String) : String :=
  let sentence := pyStrip sentence0
  match sentence.data with
  | [] => sentence
  | c :: rest =>
    let sentence1 :=
      if p.referential_third_person
          && !(isPrefixList (pyLower p.name).data (pyLower sentence).data) then
        let lowered : String :=
          if sentence.data.length > 1 then ⟨Char.toLower c :: rest⟩
          else pyLower sentence
        p.name ++ " piensa que " ++ lowered
      else sentence
    if !(sentence1.data.getLastD ' ' = '!' || sentence1.data.getLastD ' ' = '?') then
      sentence1 ++ "!"
    else sentence1

/-- The sentence list of `stylize`, already filtered:
`[part.strip() for part in text.replace("\n", " ").split('.')]` with the
empty fragments dropped (the `if sentence` guard of the comprehension
that builds `decorated`). -/
def splitFragments (text : String) : List String :=
  ((pySplitChar '.' ((pyStrip text).data.map (fun c => if c = '\n' then ' ' else c))).map
    (fun part => pyStrip ⟨part⟩)).filter (fun s => !s.data.isEmpty)

/-- `PaimonPersona.stylize`.  Returns `none` exactly when Python raises
(`ZeroDivisionError` from `len(decorated) % len(closing_emotes)` with an
empty emote tuple). -/
def stylize (p : PaimonPersona) (text0 : String)
    (context_tags : Option (List String)) : Option String :=
  let text := pyStrip text0
  if text.data.isEmpty then some "¡Paimon está un poco confundida ahora mismo!"
  else
    let decorated0 := (splitFragments text0).map (decorate_sentence p)
    let decorated :=
      if decorated0.isEmpty then ["¡Paimon no encuentra palabras para esto!"]
      else decorated0
    match p.closing_emotes[decorated.length % p.closing_emotes.length]? with
    | none => none
    | some emote =>
      let suffix := " " ++ emote
      let awareness :=
        if (match context_tags with
            | some tags => !tags.isEmpty && tags.contains "command"
            | none => false) then ""
        else " Paimon recuerda que es una bot guía."
      some (String.intercalate " " decorated ++ awareness ++ suffix)

/-! ## src/bot/command_docs.py -/

/-- `CommandDocument` dataclass; `path` is the source file path string
(`path.as_posix()` output). -/
structure CommandDocument where
  name : String
  content : String
  path : String
  deriving Repr, DecidableEq

/-- `CommandDocument.summary`: first non-blank paragraph
(`content.split('\n\n')`, stripped, empties dropped), else the whole
trimmed content. -/
def CommandDocument.summary (d : CommandDocument) : String :=
  let sections :=
    ((pySplitSeq ['\n', '\n'] d.content.data).map (fun part => pyStrip ⟨part⟩)).filter
      (fun s => !s.data.isEmpty)
  match sections with
  | [] => pyStrip d.content
  | s :: _ => s

/-- `CommandDocumentation`: the `_documents` dict as an association list
in insertion (= loading) order; keys are unique (dict semantics) and
are the lower-cased file stems. -/
structure CommandDocumentation where
  documents : List (String × CommandDocument)

/-- Python dict lookup `self._documents.get(key)` /
`self._documents[key]` on the association list. -/
def lookupDoc (docs : List (String × CommandDocument)) (key : String) :
    Option CommandDocument :=
  match docs with
  | [] => none
  | (name, doc) :: rest => if name = key then some doc else lookupDoc rest key

/-- `CommandDocumentation.get`: exact lookup of the lower-cased name. -/
def CommandDocumentation.get (d : CommandDocumentation) (command_name : String) :
    Option CommandDocument :=
  lookupDoc d.documents (pyLower command_name)

/-- The key-relatedness test of `find_best_match`:
`name in normalized or normalized in name`. -/
def relatedKey (normalized name : String) : Bool :=
  containsSub name.data normalized.data || containsSub normalized.data name.data

/-- The fallback loop of `find_best_match`: first document in iteration
order whose key is related to the query. -/
def firstRelated (docs : List (String × CommandDocument)) (normalized : String) :
    Option CommandDocument :=
  match docs with
  | [] => none
  | (name, doc) :: rest =>
    if relatedKey normalized name then some doc else firstRelated rest normalized

/-- `CommandDocumentation.find_best_match`. -/
def CommandDocumentation.find_best_match (d : CommandDocumentation) (query : String) :
    Option CommandDocument :=
  let normalized := pyLower query
  match lookupDoc d.documents normalized with
  | some doc => some doc
  | none => firstRelated d.documents normalized

/-! ## src/bot/chatbot.py: COMMAND_PATTERN

`re.compile(r"(?:!|/)?(?:comando|command|cmd)[:\s]+(?P<name>[\w-]+)", re.IGNORECASE)`
searched with `.search` (leftmost match).  `\w` is embedded as ASCII
`[a-zA-Z0-9_]`.  At a given start position the regex alternation tries
`comando`, then `command`, then `cmd`, each followed by `[:\s]+[\w-]+`;
the two character classes are disjoint, so the greedy quantifiers need
no backtracking. -/

/-- Regex `\w` (ASCII model). -/
def isWordChar (c : Char) : Bool := c.isAlphanum || c = '_'

/-- Regex `[\w-]`. -/
def isNameChar (c : Char) : Bool := isWordChar c || c = '-'

/-- Regex `[:\s]`. -/
def isSepChar (c : Char) : Bool := c = ':' || pyIsSpace c

/-- Case-insensitive literal-word match: consume `word` (given in lower
case) at the head of the input, returning the rest. -/
def matchWordCI (word : List Char) (l : List Char) : Option (List Char) :=
  match word, l with
  | [], rest => some rest
  | _ :: _, [] => none
  | w :: ws, c :: cs => if Char.toLower c = w then matchWordCI ws cs else none

/-- One alternation branch: the keyword, then `[:\s]+`, then the
captured `[\w-]+` group. -/
def matchKeywordThen (word : String) (l : List Char) : Option String :=
  match matchWordCI word.data l with
  | none => none
  | some after =>
    let seps := after.takeWhile isSepChar
    if seps.isEmpty then none
    else
      let rest := after.dropWhile isSepChar
      let name := rest.takeWhile isNameChar
      if name.isEmpty then none else some ⟨name⟩

/-- `(?:comando|command|cmd)[:\s]+(?P<name>[\w-]+)` at one position. -/
def matchBody (l : List Char) : Option String :=
  match matchKeywordThen "comando" l with
  | some name => some name
  | none =>
    match matchKeywordThen "command" l with
    | some name => some name
    | none => matchKeywordThen "cmd" l

/-- The full pattern at one position: the optional `(?:!|/)?` marker is
tried consumed first, then unconsumed (regex backtracking order). -/
def matchAt (l : List Char) : Option String :=
  match l with
  | c :: rest =>
    if c = '!' || c = '/' then
      match matchBody rest with
      | some name => some name
      | none => matchBody l
    else matchBody l
  | [] => matchBody l

/-- `COMMAND_PATTERN.search(message)`: the captured `name` group of the
match at the leftmost matching position. -/
def commandPatternSearch : List Char → Option String
  | [] => none
  | l@(_ :: rest) =>
    match matchAt l with
    | some name => some name
    | none => commandPatternSearch rest

/-! ## src/bot/chatbot.py: PaibotChat -/

/-- `PaibotChat` configuration state.  `historyWindow` is the stored
`self._history_window` (the constructor clamps it to at least 1);
`mentionAliases` are stored lower-cased. -/
structure PaibotChat where
  historyWindow : Nat
  mentionAliases : List String
  commandDocs : CommandDocumentation
  persona : PaimonPersona

/-- `PaibotChat.__init__` on the fields the orchestration uses:
`max(history_window, 1)` and lower-cased aliases (default
`("paibot", "@paibot", "paimon")`). -/
def mkPaibotChat (history_window : Nat) (aliases : Option (List String))
    (docs : CommandDocumentation) (persona : PaimonPersona) : PaibotChat :=
  { historyWindow := max history_window 1,
    mentionAliases := (aliases.getD ["paibot", "@paibot", "paimon"]).map pyLower,
    commandDocs := docs,
    persona := persona }

/-- `PaibotChat._is_mention`: any alias is a substring of the
lower-cased message. -/
def is_mention (chat : PaibotChat) (message : String) : Bool :=
  let normalized := pyLower message
  chat.mentionAliases.any (fun a => containsSub a.data normalized.data)

/-- The loop body of `_resolve_command_query`'s fallback: iterate
`available_commands()` (the dict keys in order) and return
`self.command_docs.get(name)` for the first key contained in the
lower-cased message. -/
def containmentScan (docs : CommandDocumentation) :
    List (String × CommandDocument) → String → Option CommandDocument
  | [], _ => none
  | (name, _) :: rest, normalized =>
    if containsSub name.data normalized.data then docs.get name
    else containmentScan docs rest normalized

/-- `PaibotChat._resolve_command_query`. -/
def resolve_command_query (docs : CommandDocumentation) (message : String) :
    Option CommandDocument :=
  match commandPatternSearch message.data with
  | some candidate =>
    (match docs.get candidate with
     | some document => some document
     | none => docs.find_best_match candidate)
  | none =>
    let normalized := pyLower message
    containmentScan docs docs.documents normalized

/-- `PaibotChat._format_command_response`. -/
def format_command_response (document : CommandDocument) : String :=
  "El comando `" ++ document.name ++ "` funciona así:\n" ++ document.summary ++
    "\n\nPuedes revisar el archivo `" ++ document.path ++ "` para más ejemplos detallados."

/-- One entry of the `contents` list sent to the model. -/
structure ChatContent where
  role : String
  parts : List String
  deriving Repr, DecidableEq

/-- The synthetic instruction injected when the message is a mention. -/
def mentionInstruction : String :=
  "El usuario acaba de mencionar a Paibot. Responde con un tono alegre inspirado en Paimon, sin olvidar que eres una bot."

/-- `PaibotChat._recent_history`: `history[-W:]` when longer than the
window.  `pyTakeLast` models the Python negative slice, where `[-0:]`
is the whole list. -/
def pyTakeLast (k : Nat) (l : List MemoryRecord) : List MemoryRecord :=
  if k = 0 then l else l.drop (l.length - k)

/-- `PaibotChat._recent_history`. -/
def recent_history (chat : PaibotChat) (history : List MemoryRecord) :
    List MemoryRecord :=
  if history.length ≤ chat.historyWindow then history
  else pyTakeLast chat.historyWindow history

/-- `PaibotChat._trim_history`: keep at most `2 * history_window`
most-recent records. -/
def trim_history (chat : PaibotChat) (history : List MemoryRecord) :
    List MemoryRecord :=
  let max_records := chat.historyWindow * 2
  if history.length ≤ max_records then history
  else pyTakeLast max_records history

/-- The content of one history record in the prompt:
`assistant` maps to the `model` role, everything else stays `user`. -/
def recordContent (record : MemoryRecord) : ChatContent :=
  { role := if record.role = "user" then "user" else "model",
    parts := [record.content] }

/-- The `contents` list `_generate_model_reply` builds: the windowed
history, the mention instruction when applicable, then the message. -/
def build_contents (chat : PaibotChat) (history : List MemoryRecord)
    (message : String) (mention : Bool) : List ChatContent :=
  (recent_history chat history).map recordContent ++
    (if mention then [{ role := "user", parts := [mentionInstruction] }] else []) ++
    [{ role := "user", parts := [message] }]

/-- `PaibotChat._generate_model_reply`: the model's text, stripped, with
the fixed fallback substituted when empty. -/
def generate_model_reply (chat : PaibotChat) (model : List ChatContent → String)
    (history : List MemoryRecord) (message : String) (mention : Bool) : String :=
  let text := pyStrip (model (build_contents chat history message mention))
  if text.data.isEmpty then "Paimon todavía está pensando en la respuesta." else text

/-- `PaibotChat.respond`.  Returns the response together with the
updated store; `none` models the only reachable exception in the
orchestration (`stylize` with an empty emote tuple). -/
def respond (chat : PaibotChat) (model : List ChatContent → String)
    (store : Store) (now : String) (user_id : String) (message0 : String) :
    Option (String × Store) :=
  let message := pyStrip message0
  if message.data.isEmpty then
    some ("Paimon no escuchó nada, ¡intenta decir algo de nuevo!", store)
  else
    let history := load_history store now user_id
    let mention := is_mention chat message
    let command_document := resolve_command_query chat.commandDocs message
    let base_response :=
      match command_document with
      | some document => format_command_response document
      | none => generate_model_reply chat model history message mention
    let styled :=
      if mention then stylize chat.persona base_response none else some base_response
    match styled with
    | none => none
    | some final_response =>
      let updated_history := history ++
        [{ role := "user", content := message, metadata := none, timestamp := now },
         { role := "assistant", content := final_response,
           metadata := some [("mention", pyBoolStr mention)], timestamp := now }]
      let trimmed_history := trim_history chat updated_history
      some (final_response, save_history store now user_id trimmed_history)

/-! ## Derived definitions used to state the claims -/

/-- Lower-case the first character of a string, as the third-person
rewrite of `_decorate_sentence` does (`sentence[0].lower() + sentence[1:]`,
which for a one-character string coincides with `sentence.lower()`). -/
def lowerFirst (s : String) : String :=
  match s.data with
  | [] => s
  | c :: rest => ⟨Char.toLower c :: rest⟩

/-! ## Example fixtures used by witnesses -/

/-- A sample command document keyed `jump`. -/
def exampleJumpDoc : CommandDocument :=
  { name := "jump", content := "Salta sobre el obstáculo.\n\nDetalles del salto.",
    path := "commands/jump.md" }

/-- A sample command document keyed `spawn`. -/
def exampleSpawnDoc : CommandDocument :=
  { name := "spawn", content := "Invoca un objeto.\n\nMás detalles.",
    path := "commands/spawn.md" }

/-- A two-document documentation set in loading order `jump`, `spawn`. -/
def exampleDocs : CommandDocumentation :=
  ⟨[("jump", exampleJumpDoc), ("spawn", exampleSpawnDoc)]⟩

/-- A chat built by the constructor with its default aliases. -/
def exampleChat : PaibotChat := mkPaibotChat 12 none exampleDocs defaultPersona

/-- A constant model oracle. -/
def exampleModel : List ChatContent → String := fun _ => "¡Hola viajero!"

/-- The store of a fresh deployment: no memory file exists. -/
def emptyStore : Store := fun _ => none

/-! ## Basic string lemmas -/

theorem string_data_append (s t : String) : (s ++ t).data = s.data ++ t.data := by
  cases s; cases t; rfl

theorem string_ne_empty_iff (s : String) : s ≠ "" ↔ s.data ≠ [] := by
  cases s with
  | mk l =>
    constructor
    · intro h hl
      exact h (by simpa using congrArg String.mk hl)
    · intro h hl
      exact h (congrArg String.data hl)

theorem list_isEmpty_false_iff {α : Type} (l : List α) : l.isEmpty = false ↔ l ≠ [] := by
  cases l <;> simp

/-! ## C3: sanitized storage keys -/

/-- C3 counterexample: the identity `"/"` consists entirely of unsafe
characters, yet `_sanitize_user_id` maps it to `"_"`, not to the
`"anonymous"` fallback — the fallback only fires on an empty result,
and `re.sub` replaces characters one-for-one, so only the empty
identity produces an empty result. -/
theorem sanitize_user_id_all_unsafe_cex :
    ("/".data.all (fun c => !isSafeChar c)) = true ∧
    sanitize_user_id "/" = "_" ∧ sanitize_user_id "/" ≠ "anonymous" := by
  decide

/-- C3 (amended): every character of the sanitized key is in
`[A-Za-z0-9_.-]`; the empty identity maps to `"anonymous"`; and every
non-empty identity maps to its character-wise image where each unsafe
character becomes `'_'` (so an all-unsafe identity becomes a string of
underscores, not the fallback). -/
theorem sanitize_user_id_chars :
    ∀ user_id : String,
      ((sanitize_user_id user_id).data.all isSafeChar) = true ∧
      (user_id = "" → sanitize_user_id user_id = "anonymous") ∧
      (user_id ≠ "" →
        (sanitize_user_id user_id).data =
          user_id.data.map (fun c => if isSafeChar c then c else '_')) := by
  intro uid
  refine ⟨?_, ?_, ?_⟩
  · simp only [sanitize_user_id]
    by_cases h : (uid.data.map fun c => if isSafeChar c then c else '_').isEmpty
    · rw [if_pos h]
      decide
    · rw [if_neg h]
      rw [List.all_eq_true]
      intro c hc
      obtain ⟨a, _, rfl⟩ := List.mem_map.mp hc
      by_cases ha : isSafeChar a
      · simp [ha]
      · simp only [ha, if_neg]
        simp
        decide
  · intro h
    subst h
    decide
  · intro h
    simp only [sanitize_user_id]
    have hd : uid.data ≠ [] := (string_ne_empty_iff uid).mp h
    have hm : ¬((uid.data.map fun c => if isSafeChar c then c else '_').isEmpty = true) := by
      simpa using hd
    rw [if_neg hm]

/-- C3 witness: the spec's own example `"../etc/passwd"`. -/
theorem sanitize_user_id_chars_witness :
    ((sanitize_user_id "../etc/passwd").data.all isSafeChar) = true ∧
    (sanitize_user_id "../etc/passwd").data =
      "../etc/passwd".data.map (fun c => if isSafeChar c then c else '_') := by
  have h := sanitize_user_id_chars "../etc/passwd"
  exact ⟨h.1, h.2.2 (by decide)⟩

/-! ## C9: save/load round trip -/

/-- C9: `save_history` followed by `load_history` for the same user
returns the same records (role, content, metadata, timestamp, order);
`None` metadata round-trips through its omission from the serialized
dict (`to_json` drops the key and `item.get("metadata")` restores
`None`). -/
theorem save_history_load_history_roundtrip :
    ∀ (store : Store) (now1 now2 user_id : String) (history : List MemoryRecord),
      load_history (save_history store now1 user_id history) now2 user_id = history := by
  intro store n1 n2 uid h
  have hcomp : (recordOfItem n2 ∘ MemoryRecord.to_json) = id := by
    funext r
    cases r
    rfl
  simp [load_history, save_history, List.map_map, hcomp]

/-! ## C5: empty input leaves memory untouched -/

/-- C5: for an empty or whitespace-only message, `respond` returns the
fixed "heard nothing" sentence and hands back the store unchanged —
the short-circuit happens before `load_history` or `save_history`, so
no user's persisted history is read or written. -/
theorem respond_empty_message :
    ∀ (chat : PaibotChat) (model : List ChatContent → String) (store : Store)
      (now user_id message : String), pyStrip message = "" →
      respond chat model store now user_id message =
        some ("Paimon no escuchó nada, ¡intenta decir algo de nuevo!", store) := by
  intro chat model store now uid msg h
  simp only [respond, h]
  rfl

/-- C5 witness: a whitespace-only message on a fresh store. -/
theorem respond_empty_message_witness :
    respond exampleChat exampleModel emptyStore "t0" "alice" " \t " =
      some ("Paimon no escuchó nada, ¡intenta decir algo de nuevo!", emptyStore) :=
  respond_empty_message exampleChat exampleModel emptyStore "t0" "alice" " \t " (by decide)

/-! ## C6: find_best_match semantics -/

theorem firstRelated_eq_find (docs : List (String × CommandDocument)) (q : String) :
    firstRelated docs q = (docs.find? (fun pair => relatedKey q pair.1)).map Prod.snd := by
  induction docs with
  | nil => rfl
  | cons pd rest ih =>
    obtain ⟨name, doc⟩ := pd
    by_cases h : relatedKey q name <;>
      simp [firstRelated, List.find?_cons, h, ih]

/-- C6: `find_best_match` returns the exact entry for the lowered query
when it is a key; otherwise the first document, in loading order, whose
key is a substring of the lowered query or vice versa (`List.find?` on
the relatedness test); and no document when no key is related. -/
theorem find_best_match_characterization :
    ∀ (d : CommandDocumentation) (query : String),
      (∀ doc, lookupDoc d.documents (pyLower query) = some doc →
        d.find_best_match query = some doc) ∧
      (lookupDoc d.documents (pyLower query) = none →
        d.find_best_match query =
          (d.documents.find? (fun pair => relatedKey (pyLower query) pair.1)).map Prod.snd) ∧
      (lookupDoc d.documents (pyLower query) = none →
        (∀ pair ∈ d.documents, relatedKey (pyLower query) pair.1 = false) →
        d.find_best_match query = none) := by
  intro d q
  refine ⟨?_, ?_, ?_⟩
  · intro doc h
    simp only [CommandDocumentation.find_best_match, h]
  · intro h
    simp only [CommandDocumentation.find_best_match, h]
    exact firstRelated_eq_find d.documents (pyLower q)
  · intro h hall
    simp only [CommandDocumentation.find_best_match, h]
    rw [firstRelated_eq_find, List.find?_eq_none.mpr]
    · rfl
    · intro pair hp
      simp [hall pair hp]

/-- C6 witness: an upper-cased exact key, a containment fallback, and a
no-match query on the two-document fixture. -/
theorem find_best_match_characterization_witness :
    exampleDocs.find_best_match "SPAWN" = some exampleSpawnDoc ∧
    exampleDocs.find_best_match "el comando jump por favor" = some exampleJumpDoc ∧
    exampleDocs.find_best_match "teleport" = none := by
  refine ⟨?_, ?_, ?_⟩
  · exact (find_best_match_characterization exampleDocs "SPAWN").1 exampleSpawnDoc (by decide)
  · rw [(find_best_match_characterization exampleDocs "el comando jump por favor").2.1 (by decide)]
    decide
  · exact (find_best_match_characterization exampleDocs "teleport").2.2 (by decide) (by decide)

/-! ## C4: command-marker match takes priority -/

/-- C4: when `COMMAND_PATTERN` matches, `_resolve_command_query`
resolves the captured identifier by exact lookup and then
`find_best_match`, and the result does not consult the containment
scan; the containment scan over the known keys runs only when the
pattern does not match. -/
theorem resolve_command_priority :
    ∀ (docs : CommandDocumentation) (message : String),
      (∀ candidate, commandPatternSearch message.data = some candidate →
        resolve_command_query docs message =
          match docs.get candidate with
          | some document => some document
          | none => docs.find_best_match candidate) ∧
      (commandPatternSearch message.data = none →
        resolve_command_query docs message =
          containmentScan docs docs.documents (pyLower message)) := by
  intro docs msg
  constructor
  · intro cand h
    simp only [resolve_command_query, h]
  · intro h
    simp only [resolve_command_query, h]

/-- C4 witness: in `"di jump y !comando spawn"` the key `jump` appears
as a plain substring, but the explicit `!comando spawn` marker wins and
resolves `spawn`. -/
theorem resolve_command_priority_witness :
    commandPatternSearch "di jump y !comando spawn".data = some "spawn" ∧
    resolve_command_query exampleDocs "di jump y !comando spawn" = some exampleSpawnDoc ∧
    containsSub "jump".data (pyLower "di jump y !comando spawn").data = true := by
  have h := (resolve_command_priority exampleDocs "di jump y !comando spawn").1 "spawn"
      (by decide)
  refine ⟨by decide, ?_, by decide⟩
  rw [h]
  decide

/-! ## Stylize lemmas -/

theorem pyStripList_ne_nil {l : List Char} {c : Char} (hc : c ∈ l)
    (hns : pyIsSpace c = false) : pyStripList l ≠ [] := by
  intro h
  unfold pyStripList at h
  rw [List.reverse_eq_nil_iff] at h
  have h2 : ∀ x ∈ (l.dropWhile pyIsSpace).reverse, pyIsSpace x := by
    rw [← List.dropWhile_eq_nil_iff]
    exact h
  have hall : ∀ x ∈ l, pyIsSpace x = true := by
    intro x hx
    have hsplit := List.takeWhile_append_dropWhile (p := pyIsSpace) (l := l)
    rw [← hsplit] at hx
    rcases List.mem_append.mp hx with h1 | h1
    · exact List.mem_takeWhile_imp h1
    · exact h2 x (List.mem_reverse.mpr h1)
  rw [hall c hc] at hns
  cases hns

/-- Path through `stylize` for a non-blank input with a non-empty emote
tuple: the result is the decorated fragments joined with spaces, the
awareness clause, and one configured emote. -/
theorem stylize_not_blank (p : PaimonPersona) (x : String)
    (hem : p.closing_emotes ≠ []) (hx : (pyStrip x).data ≠ []) :
    ∃ d emote, d ≠ [] ∧
      (d = (splitFragments x).map (decorate_sentence p) ∨
        ((splitFragments x).map (decorate_sentence p) = [] ∧
          d = ["¡Paimon no encuentra palabras para esto!"])) ∧
      p.closing_emotes[d.length % p.closing_emotes.length]? = some emote ∧
      emote ∈ p.closing_emotes ∧
      stylize p x none =
        some (String.intercalate " " d ++ " Paimon recuerda que es una bot guía." ++
          (" " ++ emote)) := by
  have hxe : (pyStrip x).data.isEmpty = false := by
    rw [list_isEmpty_false_iff]
    exact hx
  have hlen : 0 < p.closing_emotes.length := List.length_pos.mpr hem
  refine ⟨if ((splitFragments x).map (decorate_sentence p)).isEmpty then
      ["¡Paimon no encuentra palabras para esto!"]
    else (splitFragments x).map (decorate_sentence p), ?_⟩
  set d := if ((splitFragments x).map (decorate_sentence p)).isEmpty then
      ["¡Paimon no encuentra palabras para esto!"]
    else (splitFragments x).map (decorate_sentence p) with hd
  have hdne : d ≠ [] := by
    rw [hd]
    by_cases h0 : ((splitFragments x).map (decorate_sentence p)).isEmpty
    · simp [h0]
    · rw [if_neg h0]
      exact (list_isEmpty_false_iff _).mp (Bool.eq_false_iff.mpr h0)
  have hidx : d.length % p.closing_emotes.length < p.closing_emotes.length :=
    Nat.mod_lt _ hlen
  refine ⟨p.closing_emotes[d.length % p.closing_emotes.length], hdne, ?_, ?_, ?_, ?_⟩
  · rw [hd]
    by_cases h0 : ((splitFragments x).map (decorate_sentence p)).isEmpty
    · right
      exact ⟨List.isEmpty_iff.mp h0, by rw [if_pos h0]⟩
    · left
      rw [if_neg h0]
  · exact List.getElem?_eq_getElem hidx
  · exact List.getElem_mem hidx
  · simp only [stylize, hxe, Bool.false_eq_true, if_false, ← hd,
      List.getElem?_eq_getElem hidx]

/-! ## C7: the persona styling algorithm -/

/-- C7: for a non-empty stripped fragment, with third-person rewriting
enabled and the fragment not already starting with the persona name
(case-insensitive), `_decorate_sentence` lower-cases the first character,
prepends `"{Name} piensa que "`, and appends `'!'` exactly when the
result ends in neither `'!'` nor `'?'`; and for an input with at least
one surviving fragment, `stylize` joins the decorated fragments and
appends the emote at index `fragment_count % emote_count` (after the
fixed awareness clause). -/
theorem stylize_fragment_algorithm (p : PaimonPersona) :
    (∀ s : String, (pyStrip s).data ≠ [] → p.referential_third_person = true →
      isPrefixList (pyLower p.name).data (pyLower (pyStrip s)).data = false →
      decorate_sentence p s =
        (if ((p.name ++ " piensa que " ++ lowerFirst (pyStrip s)).data.getLastD ' ' = '!' ∨
             (p.name ++ " piensa que " ++ lowerFirst (pyStrip s)).data.getLastD ' ' = '?')
         then p.name ++ " piensa que " ++ lowerFirst (pyStrip s)
         else p.name ++ " piensa que " ++ lowerFirst (pyStrip s) ++ "!")) ∧
    (∀ text : String, splitFragments text ≠ [] → p.closing_emotes ≠ [] →
      ∃ emote,
        p.closing_emotes[((splitFragments text).map (decorate_sentence p)).length %
          p.closing_emotes.length]? = some emote ∧
        stylize p text none =
          some (String.intercalate " " ((splitFragments text).map (decorate_sentence p)) ++
            " Paimon recuerda que es una bot guía." ++ (" " ++ emote))) := by
  constructor
  · intro s hs hp hpre
    obtain ⟨c, rest, hdata⟩ : ∃ c rest, (pyStrip s).data = c :: rest := by
      cases h : (pyStrip s).data with
      | nil => exact absurd h hs
      | cons c rest => exact ⟨c, rest, rfl⟩
    have hlow : (if (c :: rest).length > 1 then (⟨Char.toLower c :: rest⟩ : String)
        else pyLower (pyStrip s)) = lowerFirst (pyStrip s) := by
      cases rest with
      | nil =>
        rw [if_neg (by simp)]
        simp [pyLower, lowerFirst, hdata]
      | cons c2 rest2 =>
        rw [if_pos (by simp)]
        simp [lowerFirst, hdata]
    simp only [decorate_sentence, hdata, hp, hpre, Bool.not_false, Bool.and_self,
      if_true]
    rw [hlow]
    by_cases hA : (p.name ++ " piensa que " ++ lowerFirst (pyStrip s)).data.getLastD ' ' = '!'
    · rw [if_pos (Or.inl hA), decide_eq_true hA]
      simp only [Bool.true_or, Bool.not_true]
      rw [if_neg (by simp)]
    · by_cases hB : (p.name ++ " piensa que " ++ lowerFirst (pyStrip s)).data.getLastD ' ' = '?'
      · rw [if_pos (Or.inr hB), decide_eq_true hB]
        simp only [Bool.or_true, Bool.not_true]
        rw [if_neg (by simp)]
      · rw [if_neg (show ¬((p.name ++ " piensa que " ++ lowerFirst (pyStrip s)).data.getLastD ' ' = '!' ∨
              (p.name ++ " piensa que " ++ lowerFirst (pyStrip s)).data.getLastD ' ' = '?')
            from fun h => h.elim hA hB),
          decide_eq_false hA, decide_eq_false hB]
        simp only [Bool.or_self, Bool.not_false]
        rw [if_pos trivial]
  · intro text hfr hem
    have hx : (pyStrip text).data ≠ [] := by
      intro h0
      apply hfr
      unfold splitFragments
      rw [h0]
      rfl
    obtain ⟨d, emote, hdne, hdeq, hidx, hmem, heq⟩ := stylize_not_blank p text hem hx
    rcases hdeq with hdeq | ⟨hmap0, _⟩
    · subst hdeq
      exact ⟨emote, hidx, heq⟩
    · exact absurd (List.map_eq_nil_iff.mp hmap0) hfr

/-- C7 witness: the default persona on `"hola"`: one fragment, rewritten
to third person, `'!'` appended, emote index `1 % 4`. -/
theorem stylize_fragment_algorithm_witness :
    decorate_sentence defaultPersona "hola" = "Paimon piensa que hola!" ∧
    stylize defaultPersona "hola" none =
      some "Paimon piensa que hola! Paimon recuerda que es una bot guía. ✨" := by
  have h := stylize_fragment_algorithm defaultPersona
  constructor
  · rw [h.1 "hola" (by decide) (by decide) (by decide)]
    decide
  · obtain ⟨emote, he, hs⟩ := h.2 "hola" (by decide) (by decide)
    have he2 : (some "✨" : Option String) = some emote := by
      rw [← he]
      decide
    injection he2 with he3
    rw [hs, ← he3]
    decide

/-! ## C8: double styling -/

/-- C8 counterexample: styling `"hola"` once and styling the result
again yields a string whose last character is the emote `'♪'` — the
doubly-styled result ends in a closing emote, not in `'!'` or `'?'`
(every `stylize` output ends with the emote suffix appended after the
`'!'`/`'?'`-terminated fragments). -/
theorem stylize_double_cex :
    (((stylize defaultPersona "hola" none).bind
        (fun s => stylize defaultPersona s none)).map
      (fun t => t.data.getLastD ' ')) = some '♪' ∧
    ¬('♪' = '!') ∧ ¬('♪' = '?') := by
  decide

theorem stylize_output_not_blank (p : PaimonPersona) (x y : String)
    (hem : p.closing_emotes ≠ []) (h : stylize p x none = some y) :
    ∃ c ∈ y.data, pyIsSpace c = false := by
  by_cases hx : (pyStrip x).data.isEmpty
  · have hy : y = "¡Paimon está un poco confundida ahora mismo!" := by
      rw [stylize, if_pos hx] at h
      exact (Option.some.injEq _ _).mp h.symm
    subst hy
    decide
  · obtain ⟨d, emote, _, _, _, _, heq⟩ :=
      stylize_not_blank p x hem (by simpa using hx)
    rw [h] at heq
    have hy : y = String.intercalate " " d ++ " Paimon recuerda que es una bot guía." ++
        (" " ++ emote) := (Option.some.injEq _ _).mp heq
    refine ⟨'P', ?_, by decide⟩
    rw [hy, string_data_append, string_data_append]
    refine List.mem_append.mpr (Or.inl (List.mem_append.mpr (Or.inr ?_)))
    decide

/-- C8 (amended): applying `stylize` to any previous `stylize` output is
defined (no `ZeroDivisionError`, since the emote tuple is non-empty) and
the doubly-styled result ends with one of the configured closing emotes
— preceded by a space — rather than with `'!'` or `'?'`. -/
theorem stylize_double_no_crash (p : PaimonPersona) (hem : p.closing_emotes ≠ [])
    (s t : String) (hfirst : stylize p s none = some t) :
    ∃ u, stylize p t none = some u ∧
      ∃ emote ∈ p.closing_emotes, ∃ pre, u.data = pre ++ ' ' :: emote.data := by
  obtain ⟨c, hc, hcs⟩ := stylize_output_not_blank p s t hem hfirst
  have ht : (pyStrip t).data ≠ [] := pyStripList_ne_nil hc hcs
  obtain ⟨d, emote, _, _, _, hmem, heq⟩ := stylize_not_blank p t hem ht
  refine ⟨_, heq, emote, hmem,
    (String.intercalate " " d ++ " Paimon recuerda que es una bot guía.").data, ?_⟩
  have hsp : (" " ++ emote).data = ' ' :: emote.data := by
    rw [string_data_append]
    rfl
  rw [string_data_append, hsp]

/-- C8 witness: the default persona, first output of styling `"hola"`. -/
theorem stylize_double_no_crash_witness :
    ∃ u, stylize defaultPersona
        "Paimon piensa que hola! Paimon recuerda que es una bot guía. ✨" none = some u ∧
      ∃ emote ∈ defaultPersona.closing_emotes, ∃ pre, u.data = pre ++ ' ' :: emote.data :=
  stylize_double_no_crash defaultPersona (by decide) "hola"
    "Paimon piensa que hola! Paimon recuerda que es una bot guía. ✨" (by decide)

/-! ## C1: plain chat returns the model text verbatim -/

/-- C1: for a non-empty trimmed message that resolves no command
document and is not a mention, `respond` returns exactly
`_generate_model_reply`'s output — the model text stripped, with the
fixed "still thinking" fallback substituted when it is empty — and the
persona `stylize` transform is not applied to it. -/
theorem respond_plain_chat (chat : PaibotChat) (model : List ChatContent → String)
    (store : Store) (now user_id message : String)
    (hne : (pyStrip message).data ≠ [])
    (hcmd : resolve_command_query chat.commandDocs (pyStrip message) = none)
    (hmen : is_mention chat (pyStrip message) = false) :
    ∃ st', respond chat model store now user_id message =
        some (generate_model_reply chat model (load_history store now user_id)
          (pyStrip message) false, st') ∧
      generate_model_reply chat model (load_history store now user_id)
          (pyStrip message) false =
        (if (pyStrip (model (build_contents chat (load_history store now user_id)
              (pyStrip message) false))).data.isEmpty
         then "Paimon todavía está pensando en la respuesta."
         else pyStrip (model (build_contents chat (load_history store now user_id)
              (pyStrip message) false))) := by
  have hne' : (pyStrip message).data.isEmpty = false := (list_isEmpty_false_iff _).mpr hne
  refine ⟨save_history store now user_id (trim_history chat
      (load_history store now user_id ++
        [{ role := "user", content := pyStrip message, metadata := none, timestamp := now },
         { role := "assistant",
           content := generate_model_reply chat model (load_history store now user_id)
             (pyStrip message) false,
           metadata := some [("mention", pyBoolStr false)], timestamp := now }])),
    ?_, rfl⟩
  simp only [respond, hne', Bool.false_eq_true, if_false, hcmd, hmen]

/-- C1 witness: a fresh user saying `"Hola"` (no command, no alias). -/
theorem respond_plain_chat_witness :
    ∃ st', respond exampleChat exampleModel emptyStore "t0" "alice" "Hola" =
        some (generate_model_reply exampleChat exampleModel
          (load_history emptyStore "t0" "alice") (pyStrip "Hola") false, st') ∧
      generate_model_reply exampleChat exampleModel
          (load_history emptyStore "t0" "alice") (pyStrip "Hola") false =
        (if (pyStrip (exampleModel (build_contents exampleChat
              (load_history emptyStore "t0" "alice") (pyStrip "Hola") false))).data.isEmpty
         then "Paimon todavía está pensando en la respuesta."
         else pyStrip (exampleModel (build_contents exampleChat
              (load_history emptyStore "t0" "alice") (pyStrip "Hola") false))) :=
  respond_plain_chat exampleChat exampleModel emptyStore "t0" "alice" "Hola"
    (by decide) (by decide) (by decide)

/-! ## C2: history windowing -/

theorem pyTakeLast_suffix (k : Nat) (l : List MemoryRecord) :
    (pyTakeLast k l).IsSuffix l := by
  unfold pyTakeLast
  split
  · exact List.suffix_refl l
  · exact List.drop_suffix _ _

theorem pyTakeLast_length (k : Nat) (l : List MemoryRecord) (hk : k ≠ 0) :
    (pyTakeLast k l).length ≤ k := by
  unfold pyTakeLast
  rw [if_neg hk, List.length_drop]
  omega

theorem trim_history_length (chat : PaibotChat) (hW : 1 ≤ chat.historyWindow)
    (l : List MemoryRecord) :
    (trim_history chat l).length ≤ 2 * chat.historyWindow := by
  simp only [trim_history]
  split
  · omega
  · have := pyTakeLast_length (chat.historyWindow * 2) l (by omega)
    omega

theorem trim_history_suffix (chat : PaibotChat) (l : List MemoryRecord) :
    (trim_history chat l).IsSuffix l := by
  simp only [trim_history]
  split
  · exact List.suffix_refl l
  · exact pyTakeLast_suffix _ _

theorem recent_history_length (chat : PaibotChat) (hW : 1 ≤ chat.historyWindow)
    (h : List MemoryRecord) :
    (recent_history chat h).length ≤ chat.historyWindow := by
  unfold recent_history
  split
  · omega
  · have := pyTakeLast_length chat.historyWindow h (by omega)
    omega

theorem recent_history_suffix (chat : PaibotChat) (h : List MemoryRecord) :
    (recent_history chat h).IsSuffix h := by
  unfold recent_history
  split
  · exact List.suffix_refl h
  · exact pyTakeLast_suffix _ _

theorem save_history_cases (store : Store) (now user_id : String)
    (history : List MemoryRecord) (key : String) :
    save_history store now user_id history key = store key ∨
    ∃ payload, save_history store now user_id history key = some payload ∧
      payload.history.length = history.length := by
  unfold save_history
  by_cases hkey : key = sanitize_user_id user_id
  · right
    refine ⟨{ user_id := user_id
              history := history.map MemoryRecord.to_json
              updated_at := now }, ?_, ?_⟩
    · rw [if_pos hkey]
    · simp
  · left
    rw [if_neg hkey]

/-- C2: with the chat's history window `W` (the constructor stores at
least 1): the trimmed history `save_history` persists never exceeds
`2*W` records and is a suffix of the untrimmed history (oldest dropped
first); the windowed history in the model prompt has at most `W`
records and is a suffix of the loaded history (most recent, in order,
oldest of the window first); the prompt is that window followed by the
optional mention instruction and the message; and every store `respond`
returns maps each key either to its old value or to a payload of at
most `2*W` records. -/
theorem respond_history_window (chat : PaibotChat) (hW : 1 ≤ chat.historyWindow) :
    (∀ hw a docs persona, 1 ≤ (mkPaibotChat hw a docs persona).historyWindow) ∧
    (∀ l, (trim_history chat l).length ≤ 2 * chat.historyWindow ∧
      (trim_history chat l).IsSuffix l) ∧
    (∀ h, (recent_history chat h).length ≤ chat.historyWindow ∧
      (recent_history chat h).IsSuffix h) ∧
    (∀ h message mention, build_contents chat h message mention =
      (recent_history chat h).map recordContent ++
        ((if mention then [{ role := "user", parts := [mentionInstruction] }] else []) ++
          [{ role := "user", parts := [message] }])) ∧
    (∀ model store now user_id message response st',
      respond chat model store now user_id message = some (response, st') →
      ∀ key, st' key = store key ∨
        ∃ payload, st' key = some payload ∧
          payload.history.length ≤ 2 * chat.historyWindow) := by
  refine ⟨?_, ?_, ?_, ?_, ?_⟩
  · intro hw a docs persona
    simp only [mkPaibotChat]
    exact Nat.le_max_right hw 1
  · intro l
    exact ⟨trim_history_length chat hW l, trim_history_suffix chat l⟩
  · intro h
    exact ⟨recent_history_length chat hW h, recent_history_suffix chat h⟩
  · intro h message mention
    simp only [build_contents, List.append_assoc]
  · intro model store now uid msg resp st' hr key
    simp only [respond] at hr
    by_cases hmsg : (pyStrip msg).data.isEmpty
    · rw [if_pos hmsg] at hr
      simp only [Option.some.injEq, Prod.mk.injEq] at hr
      left
      rw [← hr.2]
    · rw [if_neg hmsg] at hr
      split at hr
      · exact absurd hr (by simp)
      · simp only [Option.some.injEq, Prod.mk.injEq] at hr
        rw [← hr.2]
        rcases save_history_cases store now uid _ key with h | ⟨payload, hp, hlen⟩
        · left
          exact h
        · right
          refine ⟨payload, hp, ?_⟩
          rw [hlen]
          exact trim_history_length chat hW _

/-- C2 witness: the default chat (window 12) on a one-record history. -/
theorem respond_history_window_witness :
    (trim_history exampleChat
        [{ role := "user", content := "hola", metadata := none, timestamp := "t" }]).length ≤
      2 * exampleChat.historyWindow ∧
    (recent_history exampleChat
        [{ role := "user", content := "hola", metadata := none, timestamp := "t" }]).IsSuffix
      [{ role := "user", content := "hola", metadata := none, timestamp := "t" }] := by
  have h := respond_history_window exampleChat (by decide)
  exact ⟨(h.2.1 _).1, (h.2.2.1 _).2⟩

/-! ## C10: every response is non-empty -/

theorem string_append_ne_left (s t : String) (h : s ≠ "") : s ++ t ≠ "" := by
  rw [string_ne_empty_iff] at h ⊢
  rw [string_data_append]
  simp [h]

theorem format_command_response_ne (d : CommandDocument) :
    format_command_response d ≠ "" := by
  unfold format_command_response
  apply string_append_ne_left
  apply string_append_ne_left
  apply string_append_ne_left
  apply string_append_ne_left
  apply string_append_ne_left
  apply string_append_ne_left
  decide

theorem generate_model_reply_ne (chat : PaibotChat) (model : List ChatContent → String)
    (history : List MemoryRecord) (message : String) (mention : Bool) :
    generate_model_reply chat model history message mention ≠ "" := by
  unfold generate_model_reply
  by_cases h : (pyStrip (model (build_contents chat history message mention))).data.isEmpty
  · rw [if_pos h]
    decide
  · rw [if_neg h]
    rw [string_ne_empty_iff]
    simpa using h

theorem stylize_some_ne (p : PaimonPersona) (x : String)
    (hem : p.closing_emotes ≠ []) :
    ∃ u, stylize p x none = some u ∧ u ≠ "" := by
  by_cases hx : (pyStrip x).data.isEmpty
  · refine ⟨"¡Paimon está un poco confundida ahora mismo!", ?_, by decide⟩
    rw [stylize, if_pos hx]
  · obtain ⟨d, emote, _, _, _, _, heq⟩ :=
      stylize_not_blank p x hem (by simpa using hx)
    refine ⟨_, heq, ?_⟩
    have hsp : (" " ++ emote).data = ' ' :: emote.data := by
      rw [string_data_append]
      rfl
    rw [string_ne_empty_iff, string_data_append, hsp]
    simp

/-- C10: when the persona has at least one closing emote (as the
default does), `respond` always succeeds and returns non-empty text:
the canned empty-input sentence, the command template, the model reply
with its "still thinking" fallback, and the persona-styled variant are
all non-empty. -/
theorem respond_nonempty_response (chat : PaibotChat)
    (model : List ChatContent → String) (store : Store)
    (now user_id message : String)
    (hem : chat.persona.closing_emotes ≠ []) :
    ∃ response st', respond chat model store now user_id message =
      some (response, st') ∧ response ≠ "" := by
  by_cases hmsg : (pyStrip message).data.isEmpty
  · refine ⟨"Paimon no escuchó nada, ¡intenta decir algo de nuevo!", store, ?_, by decide⟩
    rw [respond, if_pos hmsg]
  · have hmsg' : (pyStrip message).data.isEmpty = false := by
      simpa using hmsg
    rcases hcr : resolve_command_query chat.commandDocs (pyStrip message) with _ | doc
    · by_cases hmen : is_mention chat (pyStrip message)
      · obtain ⟨u, hu, hune⟩ := stylize_some_ne chat.persona
          (generate_model_reply chat model (load_history store now user_id)
            (pyStrip message) true) hem
        refine ⟨u, save_history store now user_id (trim_history chat
            (load_history store now user_id ++
              [{ role := "user", content := pyStrip message, metadata := none, timestamp := now },
               { role := "assistant", content := u
                 metadata := some [("mention", pyBoolStr true)], timestamp := now }])),
          ?_, hune⟩
        simp only [respond, hmsg', Bool.false_eq_true, if_false, hcr, hmen, if_true, hu]
      · have hmen' : is_mention chat (pyStrip message) = false := by
          simpa using hmen
        refine ⟨generate_model_reply chat model (load_history store now user_id)
            (pyStrip message) false,
          save_history store now user_id (trim_history chat
            (load_history store now user_id ++
              [{ role := "user", content := pyStrip message, metadata := none, timestamp := now },
               { role := "assistant"
                 content := generate_model_reply chat model (load_history store now user_id)
                   (pyStrip message) false
                 metadata := some [("mention", pyBoolStr false)], timestamp := now }])),
          ?_,
          generate_model_reply_ne chat model (load_history store now user_id)
            (pyStrip message) false⟩
        simp only [respond, hmsg', Bool.false_eq_true, if_false, hcr, hmen']
    · by_cases hmen : is_mention chat (pyStrip message)
      · obtain ⟨u, hu, hune⟩ := stylize_some_ne chat.persona
          (format_command_response doc) hem
        refine ⟨u, save_history store now user_id (trim_history chat
            (load_history store now user_id ++
              [{ role := "user", content := pyStrip message, metadata := none, timestamp := now },
               { role := "assistant", content := u
                 metadata := some [("mention", pyBoolStr true)], timestamp := now }])),
          ?_, hune⟩
        simp only [respond, hmsg', Bool.false_eq_true, if_false, hcr, hmen, if_true, hu]
      · have hmen' : is_mention chat (pyStrip message) = false := by
          simpa using hmen
        refine ⟨format_command_response doc,
          save_history store now user_id (trim_history chat
            (load_history store now user_id ++
              [{ role := "user", content := pyStrip message, metadata := none, timestamp := now },
               { role := "assistant", content := format_command_response doc
                 metadata := some [("mention", pyBoolStr false)], timestamp := now }])),
          ?_, format_command_response_ne doc⟩
        simp only [respond, hmsg', Bool.false_eq_true, if_false, hcr, hmen']

/-- C10 witness: a concrete turn on the default chat. -/
theorem respond_nonempty_response_witness :
    ∃ response st', respond exampleChat exampleModel emptyStore "t0" "alice" "Hola" =
      some (response, st') ∧ response ≠ "" :=
  respond_nonempty_response exampleChat exampleModel emptyStore "t0" "alice" "Hola"
    (by decide)
